import Mathlib

/-!
Shallow embedding of `src/zenodo_report.py` (zenodo_report repository).

The embedding follows the Python source line by line:

* spreadsheet cell values are `Option String` (`none` = empty cell);
* Python truthiness of a cell is `truthy`;
* fallible Python code (uncaught exceptions such as `UnboundLocalError`,
  `KeyError`, `IndexError`) is modelled with `Except String`;
* the Python local variable `doi` of `update_xlsx_with_zenodo_links`, which
  persists across loop iterations of the row loop, is threaded explicitly as
  `Option (Option String)` (`none` = unbound, `some v` = bound to `v`);
* remote HTTP calls are abstracted by their decoded responses
  (`ZenodoResponse`) or by oracle functions in `RowEnv`.
-/

namespace ZenodoReport

/-- Python truthiness of a string-valued spreadsheet cell:
`None` and the empty string are falsy, every other string is truthy. -/
def truthy : Option String → Bool
  | none => false
  | some s => !s.isEmpty

/-- Python `str(...)` applied to a cell value: `str(None) = "None"`,
`str` of a string is the string itself. -/
def pyStr : Option String → String
  | none => "None"
  | some s => s

/-- Python `str.isdigit` restricted to ASCII content: true iff the string is
nonempty and all characters are digits. -/
def pyIsDigit (s : String) : Bool := !s.isEmpty && s.toList.all Char.isDigit

/-- Python regex `\s` (ASCII): space, tab, newline, carriage return,
vertical tab, form feed. -/
def pyIsSpace (c : Char) : Bool :=
  c = ' ' || c = '\t' || c = '\n' || c = '\x0d' || c = '\x0b' || c = '\x0c'

/-- Python `str.strip()`: drop leading and trailing whitespace. -/
def pyStrip (s : String) : String :=
  String.mk (((s.toList.dropWhile pyIsSpace).reverse.dropWhile pyIsSpace).reverse)

/-- Boolean list-prefix test used by `listInfixOf`. -/
def listPrefixOf : List Char → List Char → Bool
  | [], _ => true
  | _ :: _, [] => false
  | a :: as, b :: bs => a = b && listPrefixOf as bs

/-- Boolean substring (contiguous sublist) test: Python `needle in hay`. -/
def listInfixOf (needle : List Char) : List Char → Bool
  | [] => listPrefixOf needle []
  | b :: bs => listPrefixOf needle (b :: bs) || listInfixOf needle bs

/-- Python substring membership `needle in hay` for strings. -/
def isSubstrOf (needle hay : String) : Bool := listInfixOf needle.toList hay.toList

/-!
### 4.1 Bibliographic text parser — `extract_doi_from_bibliographic_data`

Source lines 57-62:

    match = re.search(r"DOI\s*:\s*([\S]+)", bibliographic_data)
    if match:
        return match.group(1).replace(" ", "")
    return None

The regex is deterministic at every start position (the greedy `\s*` cannot
usefully backtrack because `:` and `[\S]+` both reject whitespace), so
`re.search` is exactly a leftmost scan with a greedy matcher at each index.
-/

/-- Attempt the part of the regex after the literal `DOI`: `\s*:\s*([\S]+)`,
returning the captured group. -/
def doiMatchAt (cs : List Char) : Option (List Char) :=
  match cs.dropWhile pyIsSpace with
  | ':' :: cs2 =>
      if ((cs2.dropWhile pyIsSpace).takeWhile (fun c => !pyIsSpace c)).isEmpty then none
      else some ((cs2.dropWhile pyIsSpace).takeWhile (fun c => !pyIsSpace c))
  | _ => none

/-- Leftmost search for `DOI\s*:\s*([\S]+)`, returning the captured group. -/
def doiScan : List Char → Option (List Char)
  | 'D' :: 'O' :: 'I' :: rest =>
      (match doiMatchAt rest with
       | some run => some run
       | none => doiScan ('O' :: 'I' :: rest))
  | _ :: cs => doiScan cs
  | [] => none

/-- The raw regex match group (before `.replace(" ", "")`). -/
def doiMatch (s : String) : Option String :=
  (doiScan s.toList).map fun run => String.mk run

/-- Python `.replace(" ", "")`: remove all space characters. -/
def stripSpaces (s : String) : String :=
  String.mk (s.toList.filter (fun c => c ≠ ' '))

/-- Source lines 57-62: extract a DOI token from the bibliographic data
field, stripping spaces from the matched group. -/
def extract_doi_from_bibliographic_data (s : String) : Option String :=
  (doiMatch s).map stripSpaces

/-!
### 4.2 Open-access lookup client — `search_zenodo_by_title`, `search_zenodo_by_doi`

The HTTP layer is abstracted by the decoded response: a transport status code,
the `hits.total` count and the list of hit identifiers (`hits.hits[*].id`).
Python indexing `data["hits"]["hits"][0]` raises `IndexError` on an empty
list, modelled by `Except`.
-/

/-- Decoded response of a request against the Zenodo search endpoint. -/
structure ZenodoResponse where
  status_code : Nat
  total : Nat
  hits : List Nat
deriving DecidableEq

/-- Source lines 31-43: search Zenodo for a record by title. Returns
`(recid, error message)` as in the Python tuple. -/
def search_zenodo_by_title (resp : ZenodoResponse) :
    Except String (Option Nat × Option String) :=
  if resp.status_code = 200 then
    if resp.total = 1 then
      match resp.hits.head? with
      | some recid => .ok (some recid, none)
      | none => .error "IndexError: list index out of range"
    else if resp.total > 1 then
      .ok (none, some "Multiple matches found")
    else
      .ok (none, some "No match found")
  else
    .ok (none, some "No match found")

/-- Source lines 45-55: search Zenodo for a record by DOI; first hit wins. -/
def search_zenodo_by_doi (resp : ZenodoResponse) : Except String (Option Nat) :=
  if resp.status_code = 200 then
    if resp.total > 0 then
      match resp.hits.head? with
      | some recid => .ok (some recid)
      | none => .error "IndexError: list index out of range"
    else
      .ok none
  else
    .ok none

/-!
### 4.4 Row enrichment engine — body of the row loop of
`update_xlsx_with_zenodo_links` (source lines 101-202, without the
per-row workbook save).

A row is the tuple of cells the loop body reads and writes (lines 102-108),
plus the `LINK` column information used at lines 131-136. The remote calls
at lines 141, 165 and 193 are abstracted by `RowEnv`: `titleResult` is the
value returned by `search_zenodo_by_title(title)`, `doiSearch d` the value
returned by `search_zenodo_by_doi(d)`, and `emailLookup u` the value
returned by `extract_ucy_author_email(u)`.
-/

/-- Global configuration flag `OVERWRITE_OPEN_ACCESS_LINK` (line 27). -/
structure Config where
  overwrite_open_access_link : Bool
deriving DecidableEq

/-- The cells of one data row, as read at source lines 102-108, plus the
`LINK` column data used at lines 131-136. -/
structure Row where
  no_val : Option String
  title_val : Option String
  biblio_val : Option String
  oal : Option String
  doi : Option String
  lat : Option String
  email : Option String
  hasLinkCol : Bool
  linkHyper : Option String
  linkVal : Option String
deriving DecidableEq

/-- Outcomes of the remote calls made while processing one row. -/
structure RowEnv where
  titleResult : Option Nat × Option String
  doiSearch : String → Option Nat
  emailLookup : String → Option String

/-- Python logging levels used by `log_with_context`. -/
inductive LogLevel
  | debug
  | info
  | warning
  | error
deriving DecidableEq

/-- Result of processing one row: the updated row, the state of the Python
local variable `doi` after the iteration, and the log lines emitted. -/
structure RowOutcome where
  row : Row
  doiVar : Option (Option String)
  logs : List (LogLevel × String)
deriving DecidableEq

/-- Line 110: `entry_id = str(no_cell.value).strip()`. -/
def rowEntryId (r : Row) : String := pyStrip (pyStr r.no_val)

/-- Line 116: `title = str(title_cell.value).strip() if title_cell.value else ""`. -/
def rowTitle (r : Row) : String :=
  if truthy r.title_val then pyStrip (pyStr r.title_val) else ""

/-- Line 117: `bibliographic_data = str(...).strip() if ... else ""`. -/
def rowBiblio (r : Row) : String :=
  if truthy r.biblio_val then pyStrip (pyStr r.biblio_val) else ""

/-- Lines 131-136: derive `link_as_text` from the `LINK` column when the cell
is `None` and the column exists (hyperlink target, else display value,
else the empty string). -/
def deriveLat (r : Row) : Row :=
  if r.lat = none ∧ r.hasLinkCol then
    match r.linkHyper with
    | some t => { r with lat := some t }
    | none => { r with lat := some (if truthy r.linkVal then pyStr r.linkVal else "") }
  else r

/-- Lines 139-189: the open-access resolution block. `doiVar` is the state of
the Python local variable `doi` on entry; the result carries the updated row,
the updated variable state and the log lines. Reading the variable while it
is unbound (line 153 with empty bibliographic data on the first such row)
raises `UnboundLocalError`. -/
def resolveOpenAccess (cfg : Config) (env : RowEnv) (doiVar : Option (Option String))
    (title biblio : String) (r1 : Row) :
    Except String (Row × Option (Option String) × List (LogLevel × String)) :=
  if ¬ truthy r1.oal ∨ cfg.overwrite_open_access_link then
    -- line 141: recid, message = search_zenodo_by_title(title)
    match env.titleResult with
    | (some recid, _) =>
        -- lines 143-158; lines 149-150 assign the variable doi only when
        -- bibliographic_data is truthy, line 153 then reads it
        match (if biblio ≠ "" then some (extract_doi_from_bibliographic_data biblio)
               else doiVar) with
        | none => .error "UnboundLocalError: local variable doi referenced before assignment"
        | some dv =>
            if truthy dv then
              .ok ({ r1 with oal := some ("https://zenodo.org/records/" ++ toString recid), doi := some ("https://doi.org/" ++ dv.getD "") },
                some dv,
                [(LogLevel.info, "Searching Zenodo for title: " ++ title),
                 (LogLevel.info, "Found Zenodo record: https://zenodo.org/records/" ++ toString recid),
                 (LogLevel.info, "DOI extracted: " ++ dv.getD "")])
            else
              .ok ({ r1 with oal := some ("https://zenodo.org/records/" ++ toString recid), doi := some ("https://doi.org/" ++ toString recid) },
                some dv,
                [(LogLevel.info, "Searching Zenodo for title: " ++ title),
                 (LogLevel.info, "Found Zenodo record: https://zenodo.org/records/" ++ toString recid),
                 (LogLevel.info, "No DOI found, using recid as fallback.")])
    | (none, message) =>
        -- lines 159-177
        if biblio ≠ "" then
          match extract_doi_from_bibliographic_data biblio with
          | some d =>
              -- lines 163-173
              match env.doiSearch d with
              | some recid2 =>
                  .ok ({ r1 with oal := some ("https://zenodo.org/records/" ++ toString recid2), doi := some ("https://doi.org/" ++ d) },
                    some (some d),
                    [(LogLevel.info, "Searching Zenodo for title: " ++ title),
                     (LogLevel.warning, "Zenodo search failed: " ++ pyStr message),
                     (LogLevel.info, "Extracted DOI: " ++ d),
                     (LogLevel.info, "Found Zenodo record for DOI: https://zenodo.org/records/" ++ toString recid2)])
              | none =>
                  .ok ({ r1 with doi := some ("https://doi.org/" ++ d) },
                    some (some d),
                    [(LogLevel.info, "Searching Zenodo for title: " ++ title),
                     (LogLevel.warning, "Zenodo search failed: " ++ pyStr message),
                     (LogLevel.info, "Extracted DOI: " ++ d),
                     (LogLevel.warning, "No Zenodo record found for DOI: " ++ d)])
          | none =>
              .ok (r1, some none,
                [(LogLevel.info, "Searching Zenodo for title: " ++ title),
                 (LogLevel.warning, "Zenodo search failed: " ++ pyStr message),
                 (LogLevel.warning, "No DOI found in bibliographic data.")])
        else
          .ok (r1, doiVar,
            [(LogLevel.info, "Searching Zenodo for title: " ++ title),
             (LogLevel.warning, "Zenodo search failed: " ++ pyStr message),
             (LogLevel.warning, "No bibliographic data available.")])
  else
    -- lines 178-189: Open Access link already populated
    if r1.doi = none ∧ biblio ≠ "" then
      match extract_doi_from_bibliographic_data biblio with
      | some d =>
          .ok ({ r1 with doi := some ("https://doi.org/" ++ d) }, some (some d),
            [(LogLevel.info, "Open Access link already populated, skipping update."),
             (LogLevel.info, "Extracted DOI: " ++ d)])
      | none =>
          .ok (r1, some none,
            [(LogLevel.info, "Open Access link already populated, skipping update."),
             (LogLevel.warning, "No DOI found in bibliographic data.")])
    else
      .ok (r1, doiVar,
        [(LogLevel.info, "Open Access link already populated, skipping update."),
         (LogLevel.info, "DOI already populated, skipping update.")])

/-- Lines 191-195: populate `author_email` when blank and `link_as_text`
is truthy. -/
def resolveEmail (env : RowEnv) (r2 : Row) : Row :=
  if ¬ truthy r2.email ∧ truthy r2.lat then
    match env.emailLookup (r2.lat.getD "") with
    | some author_email => { r2 with email := some author_email }
    | none => r2
  else r2

/-- Python `str.lower()` restricted to ASCII content. -/
def pyLower (s : String) : String := String.mk (s.toList.map Char.toLower)

/-- Python `str.split()` with no argument: split on runs of whitespace,
discarding empty pieces. `wordsAux` carries the current word reversed. -/
def wordsAux : List Char → List Char → List String
  | [], [] => []
  | [], w => [String.mk w.reverse]
  | c :: cs, w =>
      if pyIsSpace c then
        match w with
        | [] => wordsAux cs []
        | _ => String.mk w.reverse :: wordsAux cs []
      else wordsAux cs (c :: w)

/-- Python `str.split()` (whitespace splitting, empties dropped). -/
def pySplitWs (s : String) : List String := wordsAux s.toList []

/-!
### 4.3 Secondary-source email resolver — `extract_email_from_ieee_json`
(source lines 340-374)

The parsed IEEE metadata object is abstracted to its author list; each author
carries `firstName`, `lastName` and the `affiliation` string list, the only
fields the function reads. Python `author['firstName']` / `author['lastName']`
are total on this model; `author.get("affiliation", [])` is the list field.
The `.split()[0]` indexing at source lines 357-358 raises `IndexError` on a
whitespace-only name, modelled with `Except`.
-/

/-- One entry of the `authors` list of the IEEE metadata object. -/
structure Author where
  firstName : String
  lastName : String
  affiliation : List String
deriving DecidableEq

/-- The IEEE metadata object (only the `authors` field is read). -/
structure IeeeMetadata where
  authors : List Author
deriving DecidableEq

/-- Source lines 343-350: first author with an affiliation containing
`ucy.ac.cy`; email is `lower(lastName).lower(firstName)@ucy.ac.cy`. -/
def tier1 : List Author → Option String
  | [] => none
  | a :: rest =>
      match a.affiliation.find? (fun aff => isSubstrOf "ucy.ac.cy" aff) with
      | some _ => some (pyLower a.lastName ++ "." ++ pyLower a.firstName ++ "@ucy.ac.cy")
      | none => tier1 rest

/-- Source lines 353-361: first author with an affiliation containing
`University of Cyprus`; email built from the first tokens of the names. -/
def tier2 : List Author → Except String (Option String)
  | [] => .ok none
  | a :: rest =>
      if a.affiliation.any (fun aff => isSubstrOf "University of Cyprus" aff) then
        match (pySplitWs a.firstName).head? with
        | none => .error "IndexError: list index out of range"
        | some f =>
            match (pySplitWs a.lastName).head? with
            | none => .error "IndexError: list index out of range"
            | some l => .ok (some (pyLower l ++ "." ++ pyLower f ++ "@ucy.ac.cy"))
      else tier2 rest

/-- Source lines 364-371: the hardcoded author exception loop. The Parisini
entry compares both names; the Astolfi entry compares the last name only. -/
def tier3 : List Author → Option String
  | [] => none
  | a :: rest =>
      if a.firstName = "Thomas" ∧ a.lastName = "Parisini" then
        some "parisini.thomas@ucy.ac.cy"
      else if a.lastName = "Astolfi" then
        some "astolfi.alessandro@ucy.ac.cy"
      else tier3 rest

/-- Source lines 340-374: `extract_email_from_ieee_json`, the three fallback
tiers in source order. -/
def extract_email_from_ieee_json (m : IeeeMetadata) : Except String (Option String) :=
  match tier1 m.authors with
  | some e => .ok (some e)
  | none =>
      match tier2 m.authors with
      | .error e => .error e
      | .ok (some e) => .ok (some e)
      | .ok none => .ok (tier3 m.authors)

/-- Body of the row loop of `update_xlsx_with_zenodo_links`
(source lines 101-202, without the per-row workbook save). -/
def process_row (cfg : Config) (env : RowEnv) (doiVar : Option (Option String))
    (r : Row) : Except String RowOutcome :=
  -- lines 110-114: skip rows that do not start with a number and are not the title row
  if ¬ pyIsDigit (rowEntryId r) ∧ rowEntryId r ≠ "NO." then
    .ok ⟨r, doiVar, []⟩
  -- lines 119-122: skip if Zenodo link, DOI column, and link_as_text are all populated
  else if truthy r.oal ∧ truthy r.doi ∧ truthy r.lat then
    .ok ⟨r, doiVar,
      [(LogLevel.info, "Skipping entry as all required fields are populated: " ++ rowTitle r)]⟩
  -- lines 124-126: skip rows with a missing title
  else if rowTitle r = "" then
    .ok ⟨r, doiVar, [(LogLevel.warning, "Skipping row with missing title")]⟩
  else
    match resolveOpenAccess cfg env doiVar (rowTitle r) (rowBiblio r) (deriveLat r) with
    | .error e => .error e
    | .ok (r2, dv2, logs2) =>
        .ok ⟨resolveEmail env r2, dv2,
          (LogLevel.info, "Processing entry: " ++ rowTitle r) :: logs2⟩

/-- The row loop of `update_xlsx_with_zenodo_links` (source line 101) over a
list of rows, threading the Python local variable `doi` from one iteration to
the next (it is a function-scope local, never reset between rows). Each row
comes with the outcomes of its remote calls. The per-row logs are dropped;
the result is the list of updated rows and the final variable state. -/
def process_rows (cfg : Config) :
    List (RowEnv × Row) → Option (Option String) →
    Except String (List Row × Option (Option String))
  | [], dv => .ok ([], dv)
  | (env, r) :: rest, dv =>
      match process_row cfg env dv r with
      | .error e => .error e
      | .ok out =>
          match process_rows cfg rest out.doiVar with
          | .error e => .error e
          | .ok (rs, dv2) => .ok (out.row :: rs, dv2)

/-!
### 4.5 Report generator — `prepare_email_file` (source lines 212-282)

The reloaded workbook is a list of named sheets; a sheet is its header row
(row 3) plus its data rows (rows 4 and up). openpyxl `iter_rows` pads every
row to `max_column` cells (empty cells read as `None`) and the header indices
come from row 3, which also has `max_column` cells, so the positional access
`row[idx - 1]` is always in range; `List.getD` with default `none` models it.
The header dictionary `{cell.value: idx}` keeps the last index for duplicate
header values. The unguarded `headers["link_as_text"]` access at source line
237 raises `KeyError` when that column is absent, modelled with `Except`.
-/

/-- One sheet of the reloaded workbook. -/
structure PSheet where
  name : String
  row3 : List (Option String)
  rows : List (List (Option String))
deriving DecidableEq

/-- The reloaded workbook. -/
structure Workbook where
  sheets : List PSheet
deriving DecidableEq

/-- Source line 228: `{cell.value: idx for idx, cell in enumerate(sheet[3], start=1)}`
followed by a key lookup; the last duplicate wins, as in a Python dict. -/
def headerIdx (row3 : List (Option String)) (k : String) : Option Nat :=
  (row3.enum.filterMap (fun p => if p.2 = some k then some (p.1 + 1) else none)).getLast?

/-- `row[idx - 1].value` for a padded openpyxl row. -/
def rowCell (cells : List (Option String)) (idx : Nat) : Option String :=
  cells.getD (idx - 1) none

/-- Source lines 244-251: `str(cell.value).strip() if cell.value else ""`. -/
def strOfCell (v : Option String) : String :=
  if truthy v then pyStrip (pyStr v) else ""

/-- Source lines 248-251: the same for the optional columns, whose cell is
`None` when the header is missing. -/
def optCellStr (cells : List (Option String)) (idx : Option Nat) : String :=
  match idx with
  | some i => strOfCell (rowCell cells i)
  | none => ""

/-- One digest entry built at source lines 256-263. -/
structure Paper where
  title : String
  doi : String
  year : String
  month : String
  co_authors : String
  link : String
deriving DecidableEq

/-- Source lines 234-263: process one data row; `.error` is the `KeyError`
raised by `headers["link_as_text"]` when that header is absent (line 237). -/
def scanRow (row3 : List (Option String)) (tIdx oIdx aIdx : Nat)
    (cells : List (Option String)) : Except String (Option (String × Paper)) :=
  match headerIdx row3 "link_as_text" with
  | none => .error "KeyError: link_as_text"
  | some lIdx =>
      if strOfCell (rowCell cells oIdx) = "" ∧ strOfCell (rowCell cells aIdx) ≠ "" then
        .ok (some (strOfCell (rowCell cells aIdx),
          ⟨strOfCell (rowCell cells tIdx),
           optCellStr cells (headerIdx row3 "DOI"),
           optCellStr cells (headerIdx row3 "PUBLICATION YEAR"),
           optCellStr cells (headerIdx row3 "PUBLICATION MONTH"),
           optCellStr cells (headerIdx row3 "AUTHORS"),
           strOfCell (rowCell cells lIdx)⟩))
      else .ok none

/-- The row loop of source line 234 over all data rows of one sheet. -/
def scanRows (row3 : List (Option String)) (tIdx oIdx aIdx : Nat) :
    List (List (Option String)) → Except String (List (String × Paper))
  | [] => .ok []
  | cells :: rest =>
      match scanRow row3 tIdx oIdx aIdx cells with
      | .error e => .error e
      | .ok none => scanRows row3 tIdx oIdx aIdx rest
      | .ok (some p) =>
          match scanRows row3 tIdx oIdx aIdx rest with
          | .error e => .error e
          | .ok ps => .ok (p :: ps)

/-- Source lines 230-263: one sheet; a sheet missing one of the three checked
headers is logged and skipped (contributes nothing). -/
def scanSheet (sh : PSheet) : Except String (List (String × Paper)) :=
  match headerIdx sh.row3 "TITLE ", headerIdx sh.row3 "Open Access link",
        headerIdx sh.row3 "author_email" with
  | some tIdx, some oIdx, some aIdx => scanRows sh.row3 tIdx oIdx aIdx sh.rows
  | _, _, _ => .ok []

/-- `workbook[sheet_name]` on the reloaded workbook. -/
def findSheet (wb : Workbook) (name : String) : Option PSheet :=
  wb.sheets.find? (fun sh => sh.name == name)

/-- Source lines 222-263: the sheet loop; a `sheet_name` not present in the
workbook is logged and skipped. -/
def scanSheets (wb : Workbook) : List String → Except String (List (String × Paper))
  | [] => .ok []
  | name :: rest =>
      match findSheet wb name with
      | none => scanSheets wb rest
      | some sh =>
          match scanSheet sh with
          | .error e => .error e
          | .ok ps =>
              match scanSheets wb rest with
              | .error e => .error e
              | .ok ps2 => .ok (ps ++ ps2)

/-- Append a paper under its author email, Python-dict insertion order
(source lines 253-263). -/
def addPaper (groups : List (String × List Paper)) (em : String) (p : Paper) :
    List (String × List Paper) :=
  match groups with
  | [] => [(em, [p])]
  | (k, ps) :: rest =>
      if k = em then (k, ps ++ [p]) :: rest else (k, ps) :: addPaper rest em p

/-- Fold the scanned entries into the `author_papers` dict. -/
def groupInto (acc : List (String × List Paper)) :
    List (String × Paper) → List (String × List Paper)
  | [] => acc
  | (em, p) :: rest => groupInto (addPaper acc em p) rest

/-- Source lines 270-276: the per-paper block of the digest. -/
def renderPaper (p : Paper) : String :=
  "  Title: " ++ p.title ++ "\n  DOI: " ++ p.doi ++ "\n  Year: " ++ p.year ++
  "\n  Month: " ++ p.month ++ "\n  Co-Authors: " ++ p.co_authors ++
  "\n  Link: " ++ p.link ++ "\n\n"

/-- Source lines 268-276: one author group of the digest. -/
def renderGroup (g : String × List Paper) : String :=
  "Author: " ++ g.1 ++ "\n" ++ String.join (g.2.map renderPaper)

/-- Source lines 212-278: `prepare_email_file` on an already loaded workbook
(the load failure path returns before any scanning). The result is the full
text written to the output file, or the uncaught exception that aborts the
function before the file is opened. -/
def prepare_email_file (wb : Workbook) (sheet_names : List String) :
    Except String String :=
  match scanSheets wb sheet_names with
  | .error e => .error e
  | .ok entries =>
      .ok ("Emails for authors with papers lacking Zenodo entries:\n\n" ++
        String.join ((groupInto [] entries).map renderGroup))

/-- Well-formedness of one sheet for the report scan: either one of the three
checked headers is missing (the sheet is skipped), or the sheet has no data
rows, or the `link_as_text` header is present (so the unguarded access at
source line 237 cannot raise). -/
def sheetScanSafe (sh : PSheet) : Bool :=
  !(headerIdx sh.row3 "TITLE ").isSome || !(headerIdx sh.row3 "Open Access link").isSome ||
  !(headerIdx sh.row3 "author_email").isSome || sh.rows.isEmpty ||
  (headerIdx sh.row3 "link_as_text").isSome

/-!
### Concrete inputs used by the witnesses and counterexamples
-/

/-- The shipped configuration: `OVERWRITE_OPEN_ACCESS_LINK = False`. -/
def cfgOff : Config := ⟨false⟩

/-- Remote outcomes: title search returns exactly one hit with recid 7. -/
def envTitleHit7 : RowEnv := ⟨(some 7, none), fun _ => none, fun _ => none⟩

/-- Remote outcomes: title search hits recid 7 and the email resolver
would find an address. -/
def envTitleHit7Email : RowEnv := ⟨(some 7, none), fun _ => none, fun _ => some "found@ucy.ac.cy"⟩

/-- Remote outcomes: title search fails, DOI search returns recid 555. -/
def envTitleMissDoi555 : RowEnv := ⟨(none, some "No match found"), fun _ => some 555, fun _ => none⟩

/-- Remote outcomes: title search returns exactly one hit with recid 5. -/
def envTitleHit5 : RowEnv := ⟨(some 5, none), fun _ => none, fun _ => none⟩

/-- Remote outcomes: title search fails and DOI search finds nothing. -/
def envTitleMissNoDoi : RowEnv := ⟨(none, some "No match found"), fun _ => none, fun _ => none⟩

/-- A row with a populated `DOI` cell but a blank `Open Access link` cell. -/
def rowDoiPopulated : Row :=
  ⟨some "1", some "T", some "DOI: 10.1/xyz", none, some "https://doi.org/old", some "L",
   none, false, none, none⟩

/-- A row with `Open Access link`, `DOI` and `link_as_text` all populated and
a blank `author_email`. -/
def rowAllPopulated : Row :=
  ⟨some "2", some "T", none, some "O", some "D", some "L", none, false, none, none⟩

/-- A row with an empty `BIBLIOGRAPHIC DATA` cell. -/
def rowNoBiblio : Row :=
  ⟨some "3", some "Title A", none, none, none, none, none, false, none, none⟩

/-- A row whose `NO.` cell holds the literal header echo. -/
def rowHeaderEcho : Row :=
  ⟨some "NO.", some "Some title", some "DOI: 10.1/z", none, none, some "L", none,
   false, none, none⟩

/-- A row whose `NO.` cell holds a non-numeric marker. -/
def rowAbstract : Row :=
  ⟨some "abstract", some "Ignored", none, none, none, none, none, false, none, none⟩

/-- The end-to-end scenario row of the specification. -/
def rowDistributedControl : Row :=
  ⟨some "4", some "Distributed Control", some "... DOI: 10.5281/zenodo.999 ...", none,
   none, none, none, false, none, none⟩

/-- A row whose bibliographic data carries a DOI that the remote DOI search
does not know. -/
def rowStaleSource : Row :=
  ⟨some "5", some "Title B", some "see DOI: 10.9/stale here", none, none, none, none,
   false, none, none⟩

/-- A workbook whose only sheet passes the three-header check of
`prepare_email_file` but has no `link_as_text` column and one data row. -/
def wbMissingLat : Workbook :=
  ⟨[⟨"S", [some "TITLE ", some "Open Access link", some "author_email"],
     [[none, none, none]]⟩]⟩

/-- A workbook whose only sheet has all four columns and a single row that
does not qualify for the digest (its open-access link is populated). -/
def wbEmptyDigest : Workbook :=
  ⟨[⟨"S", [some "TITLE ", some "Open Access link", some "author_email", some "link_as_text"],
     [[some "T", some "https://zenodo.org/records/1", none, none]]⟩]⟩

/-!
## Helper lemmas
-/

theorem truthy_append (s t : String) (h : s.data ≠ []) : truthy (some (s ++ t)) = true := by
  show (!(s ++ t).isEmpty) = true
  rw [Bool.not_eq_true', Bool.eq_false_iff]
  intro hc
  rw [String.isEmpty_iff] at hc
  apply h
  have h2 := congrArg String.data hc
  rw [String.data_append] at h2
  simpa using (List.append_eq_nil.mp h2).1

theorem truthy_ne_none {v : Option String} (h : truthy v = true) : v ≠ none := by
  cases v with
  | none => simp [truthy] at h
  | some s => simp

theorem deriveLat_frame (r : Row) :
    (deriveLat r).oal = r.oal ∧ (deriveLat r).doi = r.doi ∧ (deriveLat r).email = r.email := by
  unfold deriveLat
  split
  · cases r.linkHyper <;> exact ⟨rfl, rfl, rfl⟩
  · exact ⟨rfl, rfl, rfl⟩

theorem deriveLat_lat_of_set (r : Row) (h : r.lat ≠ none) : (deriveLat r).lat = r.lat := by
  unfold deriveLat
  split
  · next hc => exact absurd hc.1 h
  · rfl

/-- `resolveOpenAccess` writes only the `Open Access link` and `DOI` cells. -/
theorem resolveOpenAccess_frame {cfg : Config} {env : RowEnv} {doiVar : Option (Option String)}
    {title biblio : String} {r1 r2 : Row} {dv : Option (Option String)}
    {logs : List (LogLevel × String)}
    (h : resolveOpenAccess cfg env doiVar title biblio r1 = .ok (r2, dv, logs)) :
    r2.lat = r1.lat ∧ r2.email = r1.email := by
  unfold resolveOpenAccess at h
  repeat' split at h
  all_goals first
    | exact (Except.noConfusion h)
    | (rw [Except.ok.injEq, Prod.mk.injEq, Prod.mk.injEq] at h
       obtain ⟨rfl, rfl, rfl⟩ := h
       exact ⟨rfl, rfl⟩)

/-- A truthy `Open Access link` cell stays truthy: it is either kept or
overwritten with a nonempty record link. -/
theorem resolveOpenAccess_oal_truthy {cfg : Config} {env : RowEnv}
    {doiVar : Option (Option String)} {title biblio : String} {r1 r2 : Row}
    {dv : Option (Option String)} {logs : List (LogLevel × String)}
    (h : resolveOpenAccess cfg env doiVar title biblio r1 = .ok (r2, dv, logs))
    (ht : truthy r1.oal = true) : truthy r2.oal = true := by
  unfold resolveOpenAccess at h
  repeat' split at h
  all_goals first
    | exact (Except.noConfusion h)
    | (rw [Except.ok.injEq, Prod.mk.injEq, Prod.mk.injEq] at h
       obtain ⟨rfl, rfl, rfl⟩ := h
       first
         | exact ht
         | exact truthy_append _ _ (by decide))

/-- A truthy `DOI` cell stays truthy: it is either kept or overwritten with a
nonempty `https://doi.org/...` link. -/
theorem resolveOpenAccess_doi_truthy {cfg : Config} {env : RowEnv}
    {doiVar : Option (Option String)} {title biblio : String} {r1 r2 : Row}
    {dv : Option (Option String)} {logs : List (LogLevel × String)}
    (h : resolveOpenAccess cfg env doiVar title biblio r1 = .ok (r2, dv, logs))
    (ht : truthy r1.doi = true) : truthy r2.doi = true := by
  unfold resolveOpenAccess at h
  repeat' split at h
  all_goals first
    | exact (Except.noConfusion h)
    | (rw [Except.ok.injEq, Prod.mk.injEq, Prod.mk.injEq] at h
       obtain ⟨rfl, rfl, rfl⟩ := h
       first
         | exact ht
         | exact truthy_append _ _ (by decide))

/-- With the overwrite flag off and a populated `Open Access link`, the
already-populated branch is taken: the link is kept, and the `DOI` cell is
kept whenever it is not `None`. -/
theorem resolveOpenAccess_noOverwrite {cfg : Config} {env : RowEnv}
    {doiVar : Option (Option String)} {title biblio : String} {r1 r2 : Row}
    {dv : Option (Option String)} {logs : List (LogLevel × String)}
    (h : resolveOpenAccess cfg env doiVar title biblio r1 = .ok (r2, dv, logs))
    (hflag : cfg.overwrite_open_access_link = false)
    (hoal : truthy r1.oal = true) :
    r2.oal = r1.oal ∧ (r1.doi ≠ none → r2.doi = r1.doi) := by
  unfold resolveOpenAccess at h
  repeat' split at h
  all_goals first
    | (rw [Except.ok.injEq, Prod.mk.injEq, Prod.mk.injEq] at h
       obtain ⟨rfl, rfl, rfl⟩ := h
       simp_all)
    | simp_all

theorem resolveEmail_frame (env : RowEnv) (r2 : Row) :
    (resolveEmail env r2).oal = r2.oal ∧ (resolveEmail env r2).doi = r2.doi ∧
    (resolveEmail env r2).lat = r2.lat := by
  unfold resolveEmail
  split
  · split <;> exact ⟨rfl, rfl, rfl⟩
  · exact ⟨rfl, rfl, rfl⟩

theorem resolveEmail_email_of_truthy (env : RowEnv) (r2 : Row)
    (ht : truthy r2.email = true) : (resolveEmail env r2).email = r2.email := by
  unfold resolveEmail
  split
  · next hc => exact absurd ht (by simpa using hc.1)
  · rfl

/-- Shape of a successful row iteration: either one of the three skip tests
fired and the row is returned unchanged, or the row went through link
derivation, open-access resolution and email resolution. -/
theorem process_row_shape {cfg : Config} {env : RowEnv} {doiVar : Option (Option String)}
    {r : Row} {out : RowOutcome}
    (h : process_row cfg env doiVar r = .ok out) :
    out.row = r ∨
    ∃ r2 dv2 logs2,
      resolveOpenAccess cfg env doiVar (rowTitle r) (rowBiblio r) (deriveLat r) =
        .ok (r2, dv2, logs2) ∧
      out.row = resolveEmail env r2 := by
  unfold process_row at h
  repeat' split at h
  all_goals first
    | exact (Except.noConfusion h)
    | exact Or.inl (h ▸ rfl)
    | (injection h with h2; exact Or.inl (h2 ▸ rfl))
    | (rename_i r2 dv2 logs2 heq
       refine Or.inr ⟨r2, dv2, logs2, heq, ?_⟩
       first
         | exact (h ▸ rfl)
         | (injection h with h2; exact (h2 ▸ rfl)))

theorem doiMatchAt_no_space {cs run : List Char} (h : doiMatchAt cs = some run) :
    run.all (fun c => !pyIsSpace c) = true := by
  unfold doiMatchAt at h
  split at h
  · split at h
    · exact Option.noConfusion h
    · injection h with h
      subst h
      exact List.all_takeWhile
  · exact Option.noConfusion h

/-- The captured regex group is a run of non-whitespace characters. -/
theorem doiScan_no_space {cs run : List Char} (h : doiScan cs = some run) :
    run.all (fun c => !pyIsSpace c) = true := by
  induction cs using doiScan.induct with
  | case1 rest run1 hm =>
      rw [doiScan, hm] at h
      injection h with h
      subst h
      exact doiMatchAt_no_space hm
  | case2 rest hm ih =>
      rw [doiScan, hm] at h
      exact ih h
  | case3 c cs hne ih =>
      rw [doiScan] at h
      · exact ih h
      · exact hne
  | case4 =>
      rw [doiScan] at h
      exact Option.noConfusion h

/-- A successful scan requires a literal `DOI` occurrence in the input. -/
theorem doiScan_has_token {cs run : List Char} (h : doiScan cs = some run) :
    listInfixOf ['D', 'O', 'I'] cs = true := by
  induction cs using doiScan.induct with
  | case1 rest run1 hm => simp [listInfixOf, listPrefixOf]
  | case2 rest hm ih => simp [listInfixOf, listPrefixOf]
  | case3 c cs hne ih =>
      rw [doiScan] at h
      · have hrec := ih h
        simp [listInfixOf, hrec]
      · exact hne
  | case4 =>
      rw [doiScan] at h
      exact Option.noConfusion h

theorem tier1_eq_none {authors : List Author}
    (h : ∀ a ∈ authors, ∀ aff ∈ a.affiliation, isSubstrOf "ucy.ac.cy" aff = false) :
    tier1 authors = none := by
  induction authors with
  | nil => rfl
  | cons a rest ih =>
      unfold tier1
      have hf : a.affiliation.find? (fun aff => isSubstrOf "ucy.ac.cy" aff) = none := by
        rw [List.find?_eq_none]
        intro x hx
        simp [h a (by simp) x hx]
      rw [hf]
      exact ih (fun b hb aff haff => h b (by simp [hb]) aff haff)

theorem tier2_eq_none {authors : List Author}
    (h : ∀ a ∈ authors, ∀ aff ∈ a.affiliation,
       isSubstrOf "University of Cyprus" aff = false) :
    tier2 authors = .ok none := by
  induction authors with
  | nil => rfl
  | cons a rest ih =>
      unfold tier2
      rw [if_neg]
      · exact ih (fun b hb aff haff => h b (by simp [hb]) aff haff)
      · intro hc
        obtain ⟨x, hx, hp⟩ := List.any_eq_true.mp hc
        rw [h a (by simp) x hx] at hp
        exact Bool.noConfusion hp

/-- The exception loop returns nothing exactly when no author is a
`("Thomas", "Parisini")` pair and no author has last name `"Astolfi"`. -/
theorem tier3_eq_none_iff {authors : List Author} :
    tier3 authors = none ↔
    ∀ a ∈ authors,
      ¬(a.firstName = "Thomas" ∧ a.lastName = "Parisini") ∧ a.lastName ≠ "Astolfi" := by
  induction authors with
  | nil => simp [tier3]
  | cons a rest ih =>
      unfold tier3
      by_cases h1 : a.firstName = "Thomas" ∧ a.lastName = "Parisini"
      · rw [if_pos h1]
        simp [h1]
      · rw [if_neg h1]
        by_cases h2 : a.lastName = "Astolfi"
        · rw [if_pos h2]
          simp [h1, h2]
        · rw [if_neg h2, ih, List.forall_mem_cons]
          constructor
          · intro hall
            exact ⟨⟨h1, h2⟩, hall⟩
          · intro hall
            exact hall.2

theorem scanRow_ok {row3 : List (Option String)} {tIdx oIdx aIdx : Nat}
    {cells : List (Option String)}
    (hl : (headerIdx row3 "link_as_text").isSome = true) :
    ∃ p, scanRow row3 tIdx oIdx aIdx cells = .ok p := by
  unfold scanRow
  cases hh : headerIdx row3 "link_as_text" with
  | none => rw [hh] at hl; simp at hl
  | some i =>
      simp only [hh]
      split
      · exact ⟨_, rfl⟩
      · exact ⟨_, rfl⟩

theorem scanRows_ok {row3 : List (Option String)} {tIdx oIdx aIdx : Nat}
    (hl : (headerIdx row3 "link_as_text").isSome = true) :
    ∀ rows, ∃ ps, scanRows row3 tIdx oIdx aIdx rows = .ok ps := by
  intro rows
  induction rows with
  | nil => exact ⟨[], rfl⟩
  | cons cells rest ih =>
      obtain ⟨p, hp⟩ := @scanRow_ok row3 tIdx oIdx aIdx cells hl
      obtain ⟨ps, hps⟩ := ih
      cases p with
      | none => exact ⟨ps, by simp [scanRows, hp, hps]⟩
      | some q => exact ⟨q :: ps, by simp [scanRows, hp, hps]⟩

theorem scanSheet_ok (sh : PSheet) (h : sheetScanSafe sh = true) :
    ∃ ps, scanSheet sh = .ok ps := by
  cases h1 : headerIdx sh.row3 "TITLE " with
  | none => exact ⟨[], by simp [scanSheet, h1]⟩
  | some tIdx =>
      cases h2 : headerIdx sh.row3 "Open Access link" with
      | none => exact ⟨[], by simp [scanSheet, h1, h2]⟩
      | some oIdx =>
          cases h3 : headerIdx sh.row3 "author_email" with
          | none => exact ⟨[], by simp [scanSheet, h1, h2, h3]⟩
          | some aIdx =>
              cases hr : sh.rows with
              | nil => exact ⟨[], by simp [scanSheet, h1, h2, h3, hr, scanRows]⟩
              | cons x xs =>
                  have hl : (headerIdx sh.row3 "link_as_text").isSome = true := by
                    simp [sheetScanSafe, h1, h2, h3, hr] at h
                    exact h
                  obtain ⟨ps, hps⟩ := scanRows_ok hl (x :: xs)
                  refine ⟨ps, ?_⟩
                  simp only [scanSheet, h1, h2, h3]
                  rw [hr]
                  exact hps

theorem scanSheets_ok (wb : Workbook) (names : List String)
    (hok : ∀ name ∈ names, (findSheet wb name).all sheetScanSafe = true) :
    ∃ entries, scanSheets wb names = .ok entries := by
  induction names with
  | nil => exact ⟨[], rfl⟩
  | cons name rest ih =>
      obtain ⟨ps2, hps2⟩ := ih (fun n hn => hok n (by simp [hn]))
      have h1 := hok name (by simp)
      cases hf : findSheet wb name with
      | none => exact ⟨ps2, by simp [scanSheets, hf, hps2]⟩
      | some sh =>
          rw [hf] at h1
          simp [Option.all] at h1
          obtain ⟨ps, hps⟩ := scanSheet_ok sh h1
          exact ⟨ps ++ ps2, by simp [scanSheets, hf, hps, hps2]⟩

/-!
## Claim theorems
-/

/-- C1, counterexample: with the overwrite flag off, a row whose `DOI` cell is
already populated but whose `Open Access link` is blank has its `DOI` cell
overwritten by open-access resolution, so the claimed invariant fails. -/
theorem claim1_doi_overwritten_cex :
    (process_row cfgOff envTitleHit7 none rowDoiPopulated).map (fun o => o.row.doi) =
      .ok (some "https://doi.org/10.1/xyz") ∧
    rowDoiPopulated.doi = some "https://doi.org/old" ∧
    cfgOff.overwrite_open_access_link = false := ⟨rfl, rfl, rfl⟩

/-- C1, amended: none of the four enrichment fields is ever cleared once set
(truthy stays truthy); `link_as_text` and `author_email` are written only
when blank; with the overwrite flag off, a populated `Open Access link` is
kept, and then a non-`None` `DOI` cell is kept as well. (The `DOI` cell can
however be rewritten whenever `Open Access link` is blank, even with the flag
off — see the counterexample.) -/
theorem claim1_enrichment_invariant
    (cfg : Config) (env : RowEnv) (doiVar : Option (Option String)) (r : Row)
    (out : RowOutcome) (h : process_row cfg env doiVar r = .ok out) :
    (truthy r.oal = true → truthy out.row.oal = true) ∧
    (truthy r.doi = true → truthy out.row.doi = true) ∧
    (truthy r.lat = true → truthy out.row.lat = true) ∧
    (truthy r.email = true → truthy out.row.email = true) ∧
    (r.lat ≠ none → out.row.lat = r.lat) ∧
    (truthy r.email = true → out.row.email = r.email) ∧
    (cfg.overwrite_open_access_link = false → truthy r.oal = true →
       out.row.oal = r.oal ∧ (r.doi ≠ none → out.row.doi = r.doi)) := by
  rcases process_row_shape h with hrow | ⟨r2, dv2, logs2, heq, hrow⟩
  · rw [hrow]
    exact ⟨fun ht => ht, fun ht => ht, fun ht => ht, fun ht => ht,
      fun _ => rfl, fun _ => rfl, fun _ _ => ⟨rfl, fun _ => rfl⟩⟩
  · obtain ⟨hdo, hdd, hde⟩ := deriveLat_frame r
    obtain ⟨hfl, hfe⟩ := resolveOpenAccess_frame heq
    obtain ⟨heo, hed, hel⟩ := resolveEmail_frame env r2
    refine ⟨?_, ?_, ?_, ?_, ?_, ?_, ?_⟩
    · intro ht
      rw [hrow, heo]
      exact resolveOpenAccess_oal_truthy heq (by rw [hdo]; exact ht)
    · intro ht
      rw [hrow, hed]
      exact resolveOpenAccess_doi_truthy heq (by rw [hdd]; exact ht)
    · intro ht
      rw [hrow, hel, hfl, deriveLat_lat_of_set r (truthy_ne_none ht)]
      exact ht
    · intro ht
      rw [hrow, resolveEmail_email_of_truthy env r2 (by rw [hfe, hde]; exact ht), hfe, hde]
      exact ht
    · intro hne
      rw [hrow, hel, hfl, deriveLat_lat_of_set r hne]
    · intro ht
      rw [hrow, resolveEmail_email_of_truthy env r2 (by rw [hfe, hde]; exact ht), hfe, hde]
    · intro hflag ht
      have hno := resolveOpenAccess_noOverwrite heq hflag (by rw [hdo]; exact ht)
      constructor
      · rw [hrow, heo, hno.1, hdo]
      · intro hdne
        rw [hrow, hed, hno.2 (by rw [hdd]; exact hdne), hdd]

/-- C1, witness: the amended invariant applied to a concrete processed row. -/
theorem claim1_enrichment_invariant_witness :
    ∃ out, process_row cfgOff envTitleHit7 none rowDoiPopulated = .ok out ∧
      out.row.lat = rowDoiPopulated.lat ∧ truthy out.row.doi = true := by
  obtain ⟨out, hout⟩ :
      ∃ out, process_row cfgOff envTitleHit7 none rowDoiPopulated = .ok out := ⟨_, rfl⟩
  have h := claim1_enrichment_invariant cfgOff envTitleHit7 none rowDoiPopulated out hout
  exact ⟨out, hout, h.2.2.2.2.1 (by decide), h.2.1 (by decide)⟩

/-- C2, counterexample: on a row with all three fields populated, a blank
`author_email` and a non-blank `link_as_text`, email resolution is NOT
attempted even though the resolver would succeed — the `continue` at source
line 122 skips the whole remainder of the loop body. -/
theorem claim2_email_not_attempted_cex :
    (process_row cfgOff envTitleHit7Email none rowAllPopulated).map (fun o => o.row.email) =
      .ok none ∧
    envTitleHit7Email.emailLookup (rowAllPopulated.lat.getD "") = some "found@ucy.ac.cy" ∧
    rowAllPopulated.email = none ∧ truthy rowAllPopulated.lat = true := ⟨rfl, rfl, rfl, rfl⟩

/-- C2, amended: when `open_access_link`, `doi` and `link_as_text` are all
populated, the engine skips the entire rest of the row processing — including
email resolution — logging one info line; the row is returned unchanged. -/
theorem claim2_short_circuit
    (cfg : Config) (env : RowEnv) (doiVar : Option (Option String)) (r : Row)
    (hid : pyIsDigit (rowEntryId r) = true ∨ rowEntryId r = "NO.")
    (h1 : truthy r.oal = true) (h2 : truthy r.doi = true) (h3 : truthy r.lat = true) :
    process_row cfg env doiVar r =
      .ok ⟨r, doiVar,
        [(LogLevel.info, "Skipping entry as all required fields are populated: " ++
          rowTitle r)]⟩ := by
  have hg : ¬(¬ pyIsDigit (rowEntryId r) = true ∧ rowEntryId r ≠ "NO.") := by
    rcases hid with hd | hd
    · intro hc; exact hc.1 hd
    · intro hc; exact hc.2 hd
  unfold process_row
  rw [if_neg hg, if_pos ⟨h1, h2, h3⟩]

/-- C2, witness: the short-circuit equation at a concrete row. -/
theorem claim2_short_circuit_witness :
    process_row cfgOff envTitleHit7Email none rowAllPopulated =
      .ok ⟨rowAllPopulated, none,
        [(LogLevel.info, "Skipping entry as all required fields are populated: T")]⟩ := by
  have h := claim2_short_circuit cfgOff envTitleHit7Email none rowAllPopulated
    (Or.inl (by decide)) (by decide) (by decide) (by decide)
  exact h.trans (by rfl)

/-- C3: the code contradicts the claim. On the first processed row whose
title search succeeds and whose bibliographic-data cell is empty, the Python
local `doi` is read at source line 153 before any assignment, raising
`UnboundLocalError` and aborting the run; and when a previous row has
assigned the variable, the stale value of that row is written into this
row's `DOI` cell instead of the documented recid fallback. -/
theorem claim3_unbound_doi_variable :
    process_rows cfgOff [(envTitleHit5, rowNoBiblio)] none =
      .error "UnboundLocalError: local variable doi referenced before assignment" ∧
    (process_rows cfgOff [(envTitleMissNoDoi, rowStaleSource), (envTitleHit5, rowNoBiblio)]
        none).map (fun p => p.1.map Row.doi) =
      .ok [some "https://doi.org/10.9/stale", some "https://doi.org/10.9/stale"] :=
  ⟨rfl, rfl⟩

/-- C4: on a processed row entering open-access resolution whose title search
fails: if a DOI is extracted, the DOI search determines the outcome — on a
hit, `open_access_link` is set from the found recid and `doi` from the
extracted DOI; on a miss, only `doi` is set from the extracted DOI; with no
extractable DOI both cells keep their values. -/
theorem claim4_title_fail_doi_fallback
    (cfg : Config) (env : RowEnv) (doiVar : Option (Option String)) (r : Row)
    (out : RowOutcome) (h : process_row cfg env doiVar r = .ok out)
    (hid : pyIsDigit (rowEntryId r) = true ∨ rowEntryId r = "NO.")
    (hsc : ¬(truthy r.oal = true ∧ truthy r.doi = true ∧ truthy r.lat = true))
    (htitle : ¬ rowTitle r = "")
    (henter : truthy r.oal = false ∨ cfg.overwrite_open_access_link = true)
    (hfail : env.titleResult.1 = none) :
    (∀ d, extract_doi_from_bibliographic_data (rowBiblio r) = some d →
       (∀ rid, env.doiSearch d = some rid →
          out.row.oal = some ("https://zenodo.org/records/" ++ toString rid) ∧
          out.row.doi = some ("https://doi.org/" ++ d)) ∧
       (env.doiSearch d = none →
          out.row.oal = r.oal ∧ out.row.doi = some ("https://doi.org/" ++ d))) ∧
    (extract_doi_from_bibliographic_data (rowBiblio r) = none →
       out.row.oal = r.oal ∧ out.row.doi = r.doi) := by
  have hg : ¬(¬ pyIsDigit (rowEntryId r) = true ∧ rowEntryId r ≠ "NO.") := by
    rcases hid with hd | hd
    · intro hc; exact hc.1 hd
    · intro hc; exact hc.2 hd
  obtain ⟨hdo, hdd, hde⟩ := deriveLat_frame r
  have hgate : (¬ truthy (deriveLat r).oal = true ∨ cfg.overwrite_open_access_link = true) := by
    rcases henter with he | he
    · left; rw [hdo, he]; simp
    · right; exact he
  unfold process_row at h
  rw [if_neg hg, if_neg hsc, if_neg htitle] at h
  split at h
  · exact (Except.noConfusion h)
  · rename_i r2 dv2 logs2 heq
    injection h with h2
    have hout : out.row = resolveEmail env r2 := by rw [← h2]
    unfold resolveOpenAccess at heq
    rw [if_pos hgate] at heq
    split at heq
    · rename_i recid snd heq2
      rw [heq2] at hfail
      simp at hfail
    · rename_i msg2 heq2
      split at heq
      · split at heq
        · rename_i d0 hx
          split at heq
          · rename_i rid0 hs
            rw [Except.ok.injEq, Prod.mk.injEq, Prod.mk.injEq] at heq
            obtain ⟨hr2, hdv2, hlogs⟩ := heq
            subst hr2
            constructor
            · intro d hd
              rw [hx] at hd
              injection hd with hd
              subst hd
              constructor
              · intro rid hrid
                rw [hs] at hrid
                injection hrid with hrid
                subst hrid
                constructor
                · rw [hout, (resolveEmail_frame env _).1]
                · rw [hout, (resolveEmail_frame env _).2.1]
              · intro hn
                rw [hs] at hn
                exact absurd hn (by simp)
            · intro hn
              rw [hx] at hn
              exact absurd hn (by simp)
          · rename_i hs
            rw [Except.ok.injEq, Prod.mk.injEq, Prod.mk.injEq] at heq
            obtain ⟨hr2, hdv2, hlogs⟩ := heq
            subst hr2
            constructor
            · intro d hd
              rw [hx] at hd
              injection hd with hd
              subst hd
              constructor
              · intro rid hrid
                rw [hs] at hrid
                exact absurd hrid (by simp)
              · intro _
                constructor
                · rw [hout, (resolveEmail_frame env _).1]
                  show (deriveLat r).oal = r.oal
                  exact hdo
                · rw [hout, (resolveEmail_frame env _).2.1]
            · intro hn
              rw [hx] at hn
              exact absurd hn (by simp)
        · rename_i hx
          rw [Except.ok.injEq, Prod.mk.injEq, Prod.mk.injEq] at heq
          obtain ⟨hr2, hdv2, hlogs⟩ := heq
          subst hr2
          constructor
          · intro d hd
            rw [hx] at hd
            exact absurd hd (by simp)
          · intro _
            constructor
            · rw [hout, (resolveEmail_frame env _).1, hdo]
            · rw [hout, (resolveEmail_frame env _).2.1, hdd]
      · rename_i hbib
        have hb : rowBiblio r = "" := by
          by_contra hc
          exact hbib hc
        rw [Except.ok.injEq, Prod.mk.injEq, Prod.mk.injEq] at heq
        obtain ⟨hr2, hdv2, hlogs⟩ := heq
        subst hr2
        constructor
        · intro d hd
          rw [hb] at hd
          have hz : extract_doi_from_bibliographic_data "" = none := rfl
          rw [hz] at hd
          exact Option.noConfusion hd
        · intro _
          constructor
          · rw [hout, (resolveEmail_frame env _).1, hdo]
          · rw [hout, (resolveEmail_frame env _).2.1, hdd]

/-- C4, witness: the specification's end-to-end scenario — title search
returns zero hits, DOI `10.5281/zenodo.999` is extracted, the DOI search
returns identifier 555. -/
theorem claim4_title_fail_doi_fallback_witness :
    ∃ out, process_row cfgOff envTitleMissDoi555 none rowDistributedControl = .ok out ∧
      out.row.oal = some "https://zenodo.org/records/555" ∧
      out.row.doi = some "https://doi.org/10.5281/zenodo.999" := by
  obtain ⟨out, hout⟩ :
      ∃ out, process_row cfgOff envTitleMissDoi555 none rowDistributedControl = .ok out :=
    ⟨_, rfl⟩
  have h := claim4_title_fail_doi_fallback cfgOff envTitleMissDoi555 none
    rowDistributedControl out hout (Or.inl (by decide)) (by decide) (by decide)
    (Or.inl (by decide)) rfl
  have h2 := (h.1 "10.5281/zenodo.999" (by decide)).1 555 rfl
  exact ⟨out, hout, h2.1.trans (by decide), h2.2.trans (by decide)⟩

/-- C5, counterexample: with more than one hit the failure message produced
by the code is `"Multiple matches found"`, not the claimed lowercase
`"multiple matches found"`. -/
theorem claim5_message_capitalization_cex :
    search_zenodo_by_title ⟨200, 2, [1, 2]⟩ = .ok (none, some "Multiple matches found") ∧
    (some "Multiple matches found" : Option String) ≠ some "multiple matches found" :=
  ⟨rfl, by decide⟩

/-- C5, amended: title search succeeds with the hit's identifier exactly when
the response has a success status and a hit total of one; with more than one
hit it fails with message `"Multiple matches found"` (capitalized) and no
identifier; zero hits and a non-success transport status both produce the
identical `"No match found"` outcome. (`hwf`: a response reporting at least
one hit carries a nonempty hit list, as the remote service guarantees.) -/
theorem claim5_title_search_outcomes (resp : ZenodoResponse)
    (hwf : 1 ≤ resp.total → resp.hits ≠ []) :
    (resp.status_code = 200 → resp.total = 1 →
       ∃ rid, resp.hits.head? = some rid ∧
         search_zenodo_by_title resp = .ok (some rid, none)) ∧
    ((∃ rid, search_zenodo_by_title resp = .ok (some rid, none)) →
       resp.status_code = 200 ∧ resp.total = 1) ∧
    (resp.status_code = 200 → resp.total > 1 →
       search_zenodo_by_title resp = .ok (none, some "Multiple matches found")) ∧
    ((¬ resp.status_code = 200 ∨ resp.total = 0) →
       search_zenodo_by_title resp = .ok (none, some "No match found")) := by
  refine ⟨?_, ?_, ?_, ?_⟩
  · intro hs ht
    have hne : resp.hits ≠ [] := hwf (by omega)
    cases hh : resp.hits with
    | nil => exact absurd hh hne
    | cons a l =>
        refine ⟨a, by simp, ?_⟩
        unfold search_zenodo_by_title
        rw [if_pos hs, if_pos ht, hh]
        rfl
  · rintro ⟨rid, hr⟩
    unfold search_zenodo_by_title at hr
    split at hr
    · split at hr
      · next ht =>
          constructor
          · assumption
          · exact ht
      · split at hr
        · simp at hr
        · simp at hr
    · simp at hr
  · intro hs ht
    unfold search_zenodo_by_title
    rw [if_pos hs, if_neg (by omega), if_pos ht]
  · intro hd
    unfold search_zenodo_by_title
    rcases hd with hs | ht
    · rw [if_neg hs]
    · by_cases hs2 : resp.status_code = 200
      · rw [if_pos hs2, if_neg (by omega), if_neg (by omega)]
      · rw [if_neg hs2]

/-- C5, witness: a response with exactly one hit succeeds with that hit. -/
theorem claim5_title_search_outcomes_witness :
    search_zenodo_by_title ⟨200, 1, [42]⟩ = .ok (some 42, none) := by
  have h := claim5_title_search_outcomes ⟨200, 1, [42]⟩ (by decide)
  obtain ⟨rid, hr, he⟩ := h.1 rfl rfl
  have h42 : rid = 42 := by simpa using hr.symm
  subst h42
  exact he

/-- C6, counterexample: on `"DOI : 10.1234/ x"` the parser returns
`"10.1234/"` — the token stops at the first whitespace — not the claimed
`"10.1234/x"`. -/
theorem claim6_truncation_cex :
    extract_doi_from_bibliographic_data "DOI : 10.1234/ x" = some "10.1234/" ∧
    (some "10.1234/" : Option String) ≠ some "10.1234/x" := ⟨by decide, by decide⟩

/-- C6, amended: the parser returns `"10.1109/TAC.2020.1234"` on the first
example; it returns nothing on any input without a literal `DOI` occurrence;
and on `"DOI : 10.1234/ x"` it returns `"10.1234/"`, which does not retain
the separating space (the match is truncated at the first whitespace). -/
theorem claim6_doi_extraction :
    extract_doi_from_bibliographic_data "... DOI: 10.1109/TAC.2020.1234 ..." =
      some "10.1109/TAC.2020.1234" ∧
    (∀ s : String, isSubstrOf "DOI" s = false →
       extract_doi_from_bibliographic_data s = none) ∧
    extract_doi_from_bibliographic_data "DOI : 10.1234/ x" = some "10.1234/" := by
  refine ⟨by decide, ?_, by decide⟩
  intro s hs
  cases hx : extract_doi_from_bibliographic_data s with
  | none => rfl
  | some d =>
      exfalso
      unfold extract_doi_from_bibliographic_data doiMatch at hx
      cases hsc : doiScan s.toList with
      | none => rw [hsc] at hx; simp at hx
      | some run =>
          have htok := doiScan_has_token hsc
          rw [show isSubstrOf "DOI" s = listInfixOf ['D', 'O', 'I'] s.toList from rfl] at hs
          rw [htok] at hs
          exact Bool.noConfusion hs

/-- C6, witness: the no-token case at a concrete input. -/
theorem claim6_doi_extraction_witness :
    isSubstrOf "DOI" "no token here" = false ∧
    extract_doi_from_bibliographic_data "no token here" = none :=
  ⟨by decide, claim6_doi_extraction.2.1 "no token here" (by decide)⟩

/-- C7, counterexample: a row whose `NO.` value is the literal header echo
`"NO."` is NOT skipped — the guard at source line 113 lets it through and the
row gets a field mutation. -/
theorem claim7_header_echo_processed_cex :
    (process_row cfgOff envTitleHit7 none rowHeaderEcho).map (fun o => o.row.oal) =
      .ok (some "https://zenodo.org/records/7") ∧
    rowHeaderEcho.no_val = some "NO." ∧ rowHeaderEcho.oal = none := ⟨rfl, rfl, rfl⟩

/-- C7, amended: a row is skipped with no field mutations and no log lines
exactly by the guard condition of source line 113: when its stripped `NO.`
value is neither a pure-digit string nor the literal `"NO."` (the header echo
row proceeds to processing, like digit rows). -/
theorem claim7_skip_condition
    (cfg : Config) (env : RowEnv) (doiVar : Option (Option String)) (r : Row)
    (hskip : pyIsDigit (rowEntryId r) = false ∧ rowEntryId r ≠ "NO.") :
    process_row cfg env doiVar r = .ok ⟨r, doiVar, []⟩ := by
  unfold process_row
  rw [if_pos ⟨by simp [hskip.1], hskip.2⟩]

/-- C7, witness: the `"abstract"` row of the specification is skipped
unchanged, with no log lines. -/
theorem claim7_skip_condition_witness :
    process_row cfgOff envTitleHit7 none rowAbstract = .ok ⟨rowAbstract, none, []⟩ :=
  claim7_skip_condition cfgOff envTitleHit7 none rowAbstract ⟨by decide, by decide⟩

/-- C8, counterexample: an author named John Astolfi — sharing only the last
name with the listed Alessandro Astolfi — is matched by the exception tier
and the mapped address is returned. -/
theorem claim8_astolfi_lastname_only_cex :
    extract_email_from_ieee_json ⟨[⟨"John", "Astolfi", []⟩]⟩ =
      .ok (some "astolfi.alessandro@ucy.ac.cy") ∧
    ("John", "Astolfi") ≠ ("Thomas", "Parisini") ∧
    ("John", "Astolfi") ≠ ("Alessandro", "Astolfi") := ⟨rfl, by decide, by decide⟩

/-- C8, amended: when no affiliation carries either institutional marker, the
resolver returns exactly the result of the exception tier, whose comparisons
are exact and case-sensitive; but only the Parisini entry requires first and
last name — the Astolfi entry matches on the last name alone. -/
theorem claim8_exception_table (m : IeeeMetadata)
    (hmark : ∀ a ∈ m.authors, ∀ aff ∈ a.affiliation,
       isSubstrOf "ucy.ac.cy" aff = false ∧ isSubstrOf "University of Cyprus" aff = false) :
    extract_email_from_ieee_json m = .ok (tier3 m.authors) ∧
    (tier3 m.authors = none ↔ ∀ a ∈ m.authors,
       ¬(a.firstName = "Thomas" ∧ a.lastName = "Parisini") ∧ a.lastName ≠ "Astolfi") := by
  have h1 := tier1_eq_none (fun a ha aff haff => (hmark a ha aff haff).1)
  have h2 := tier2_eq_none (fun a ha aff haff => (hmark a ha aff haff).2)
  constructor
  · unfold extract_email_from_ieee_json
    rw [h1, h2]
  · exact tier3_eq_none_iff

/-- C8, witness: the exception tier applied to a sole Thomas Parisini. -/
theorem claim8_exception_table_witness :
    extract_email_from_ieee_json ⟨[⟨"Thomas", "Parisini", []⟩]⟩ =
      .ok (tier3 [⟨"Thomas", "Parisini", []⟩]) ∧
    (tier3 [(⟨"Thomas", "Parisini", []⟩ : Author)] = none ↔
       ∀ a ∈ [(⟨"Thomas", "Parisini", []⟩ : Author)],
         ¬(a.firstName = "Thomas" ∧ a.lastName = "Parisini") ∧ a.lastName ≠ "Astolfi") :=
  claim8_exception_table ⟨[⟨"Thomas", "Parisini", []⟩]⟩ (by decide)

/-- C9: whenever the DOI parser matches, the captured token contains no
whitespace — it is a contiguous `[\S]+` run — so the space-stripping step
returns it unchanged, and the parser output equals the raw match. -/
theorem claim9_no_whitespace_in_doi (s d : String)
    (h : extract_doi_from_bibliographic_data s = some d) :
    d.toList.all (fun c => !pyIsSpace c) = true ∧ stripSpaces d = d ∧
    doiMatch s = some d := by
  obtain ⟨d0, hm, hstripd⟩ : ∃ d0, doiMatch s = some d0 ∧ stripSpaces d0 = d := by
    unfold extract_doi_from_bibliographic_data at h
    cases hm : doiMatch s with
    | none => rw [hm] at h; exact Option.noConfusion h
    | some d0 => rw [hm] at h; injection h with h; exact ⟨d0, rfl, h⟩
  obtain ⟨run, hsc, hrun⟩ : ∃ run, doiScan s.toList = some run ∧ String.mk run = d0 := by
    unfold doiMatch at hm
    cases hsc : doiScan s.toList with
    | none => rw [hsc] at hm; exact Option.noConfusion hm
    | some run => rw [hsc] at hm; injection hm with hm; exact ⟨run, rfl, hm⟩
  have hall0 : d0.toList.all (fun c => !pyIsSpace c) = true := by
    rw [← hrun]
    exact doiScan_no_space hsc
  have hstrip : stripSpaces d0 = d0 := by
    unfold stripSpaces
    have hfe : d0.toList.filter (fun c => decide (c ≠ ' ')) = d0.toList := by
      rw [List.filter_eq_self]
      intro a ha
      have hA := List.all_eq_true.mp hall0 a ha
      simp only [Bool.not_eq_true'] at hA
      simp only [decide_eq_true_eq]
      intro hc
      rw [hc] at hA
      simp [pyIsSpace] at hA
    rw [hfe]
    cases d0
    rfl
  have hd : d = d0 := by rw [← hstripd, hstrip]
  subst hd
  exact ⟨hall0, hstrip, hm⟩

/-- C9, witness: the property applied at a concrete input whose token is
followed by further text. -/
theorem claim9_no_whitespace_in_doi_witness :
    ("10.7/ab".toList.all (fun c => !pyIsSpace c) = true) ∧
    stripSpaces "10.7/ab" = "10.7/ab" ∧
    doiMatch "x DOI: 10.7/ab cd" = some "10.7/ab" :=
  claim9_no_whitespace_in_doi "x DOI: 10.7/ab cd" "10.7/ab" (by decide)

/-- C10, counterexample: a workbook that loads successfully but whose sheet
passes the three-header check while lacking the `link_as_text` column makes
the report generator raise `KeyError` on its first data row — no output file
and no header line are produced. -/
theorem claim10_keyerror_cex :
    prepare_email_file wbMissingLat ["S"] = .error "KeyError: link_as_text" := rfl

/-- C10, amended: provided the scan raises no error — every selected sheet
that passes the three-header check has a `link_as_text` column or no data
rows — the output file content always begins with the fixed header line,
even when no row qualifies for the digest. -/
theorem claim10_header_line (wb : Workbook) (names : List String)
    (hok : ∀ name ∈ names, (findSheet wb name).all sheetScanSafe = true) :
    ∃ body, prepare_email_file wb names =
      .ok ("Emails for authors with papers lacking Zenodo entries:\n\n" ++ body) := by
  obtain ⟨entries, he⟩ := scanSheets_ok wb names hok
  exact ⟨String.join ((groupInto [] entries).map renderGroup),
    by simp [prepare_email_file, he]⟩

/-- C10, witness: a workbook whose single row does not qualify still produces
the header line (with an empty digest body). -/
theorem claim10_header_line_witness :
    ∃ body, prepare_email_file wbEmptyDigest ["S"] =
      .ok ("Emails for authors with papers lacking Zenodo entries:\n\n" ++ body) :=
  claim10_header_line wbEmptyDigest ["S"] (by decide)

end ZenodoReport
